import Mathlib

/-!
Verification of the serial micro:bit controller of the schoolGamesPlatform
repository against its natural-language specification.

The repository contains the live controller `src/microbit-controller.js`
(class FourMicrobitController) together with historical snapshots of the same
controller: `src/unnamed/part_004` (class FourMicrobitController, the
"Complete Enhanced Version for HW-484 Hall Sensor Support") and
`src/unnamed/part_005` (class MicrobitArcadeController), plus the game file
`src/unnamed/part_000` (class BikerBeatGame) that consumes cadence data.

Each JavaScript function relevant to a claim is embedded shallowly below,
one Lean namespace per source file/class:
 - namespace FourMicrobitController : src/microbit-controller.js
 - namespace HallSensorController   : src/unnamed/part_004
 - namespace MicrobitArcadeController : src/unnamed/part_005
 - namespace BikerBeatGame          : src/unnamed/part_000

Modelling conventions, used throughout:
 - JavaScript strings are Lean `String`s; all character-level work is done on
   `String.data` (a `List Char`) with structurally recursive helpers, because
   the built-in `String.splitOn` does not reduce in the kernel.
 - A JavaScript `Map` is modelled by its observable lookup function
   (`get`): `α → Option β`.  `set`/`delete` become pointwise updates.  The
   claims never observe iteration order, so this is faithful.
 - A JavaScript number that can be `NaN` is modelled as `Option Int`
   (`none` = NaN); protocol fields are integers wherever they parse at all.
 - The four-slot JS arrays `buttonStates`/`ledStates` are `List Bool` of
   length 4.  A JS assignment `arr[i] = v` with `i` outside `0..length-1`
   (including `NaN`) creates a property outside the four tracked slots (or
   extends the array past them) and leaves slots `0..3` unchanged; the model
   tracks exactly the slots, so such writes are no-ops (`jsArraySet`).
   A JS read outside the slots yields `undefined`, which is falsy
   (`jsArrayGet` returns `false`).
 - `Date.now()` timestamps (`lastActivity`, `lastUpdateTime`) are either
   dropped (never observed by a claim) or passed in as an explicit `now`.
 - Serial writes are modelled as emitted `(port, command)` events; the
   `try/catch` around `port.write` is modelled as the write succeeding, so
   `sendCommand` succeeds exactly when a live connection exists, which is the
   only failure source the claims mention.
-/

/-! ## JavaScript string primitives -/

/-- `s.split(sep)` for a one-character separator, on character lists.
Mirrors JS `String.prototype.split`: splitting the empty string yields
`[""]`, and `n` separators yield `n+1` (possibly empty) fields. -/
def splitOnChar (sep : Char) : List Char → List (List Char)
  | [] => [[]]
  | c :: cs =>
    match splitOnChar sep cs with
    | [] => [[]]
    | w :: ws => if c = sep then [] :: w :: ws else (c :: w) :: ws

/-- JS `haystack.includes(needle)`: substring containment. -/
def isInfixL (sub s : List Char) : Bool :=
  match s with
  | [] => sub.isEmpty
  | _ :: t => sub.isPrefixOf s || isInfixL sub t

/-- JS `message.includes(sub)` on Lean strings. -/
def jsIncludes (s sub : String) : Bool := isInfixL sub.data s.data

/-- The whitespace characters skipped by JS `parseInt` (ASCII subset;
no protocol field contains Unicode whitespace). -/
def isJsSpace (c : Char) : Bool :=
  c = ' ' || c = '\t' || c = '\n' || c = '\r' || c = '\x0b' || c = '\x0c'

/-- Value of a decimal digit character. -/
def digitVal (c : Char) : Nat := c.toNat - '0'.toNat

/-- Value of a hexadecimal digit character. -/
def hexDigitVal (c : Char) : Nat :=
  if c.isDigit then digitVal c
  else if 'a' ≤ c ∧ c ≤ 'f' then c.toNat - 'a'.toNat + 10
  else c.toNat - 'A'.toNat + 10

def isHexDigit (c : Char) : Bool :=
  c.isDigit || ('a' ≤ c && c ≤ 'f') || ('A' ≤ c && c ≤ 'F')

/-- Parse a non-empty maximal prefix of decimal digits, as JS `parseInt`
does with radix 10: `"12ab"` parses to `12`, no digits parse to NaN. -/
def parseDecimal (cs : List Char) : Option Nat :=
  let ds := cs.takeWhile Char.isDigit
  if ds.isEmpty then none
  else some (ds.foldl (fun a c => a * 10 + digitVal c) 0)

/-- Unsigned part of JS `parseInt` with no explicit radix: a `0x`/`0X`
prefix switches to hexadecimal, otherwise decimal. -/
def parseUnsignedJS : List Char → Option Nat
  | '0' :: 'x' :: rest =>
    let ds := rest.takeWhile isHexDigit
    if ds.isEmpty then none
    else some (ds.foldl (fun a c => a * 16 + hexDigitVal c) 0)
  | '0' :: 'X' :: rest =>
    let ds := rest.takeWhile isHexDigit
    if ds.isEmpty then none
    else some (ds.foldl (fun a c => a * 16 + hexDigitVal c) 0)
  | cs => parseDecimal cs

/-- JS `parseInt(s)` (radix auto-detected): skip whitespace, optional sign,
then digits; `none` models the `NaN` result. -/
def parseIntJS (cs : List Char) : Option Int :=
  match cs.dropWhile isJsSpace with
  | '-' :: rest => (parseUnsignedJS rest).map (fun n => -(n : Int))
  | '+' :: rest => (parseUnsignedJS rest).map (fun n => (n : Int))
  | rest => (parseUnsignedJS rest).map (fun n => (n : Int))

/-! ## JavaScript array-slot and map primitives -/

/-- JS `arr[i] = v` restricted to the tracked slots: writes with an index
outside `0..arr.length-1` (out-of-range or `NaN` indices land on properties
outside the tracked slots) leave every tracked slot unchanged. -/
def jsArraySet (l : List Bool) (i : Int) (v : Bool) : List Bool :=
  if 0 ≤ i ∧ i < (l.length : Int) then l.set i.toNat v else l

/-- JS read `arr[i]` coerced to boolean: out-of-range reads give
`undefined`, which is falsy. -/
def jsArrayGet (l : List Bool) (i : Int) : Bool :=
  if 0 ≤ i ∧ i < (l.length : Int) then l.getD i.toNat false else false

/-- Pointwise update of a lookup-function model of a JS `Map`
(`set` when `v = some _`, `delete` when `v = none`). -/
def fnUpdate {α β : Type} [DecidableEq α] (f : α → Option β) (k : α) (v : Option β) :
    α → Option β :=
  fun k' => if k' = k then v else f k'

/-- Pointwise update of a boolean membership function (live-connection set). -/
def fnSet {α : Type} [DecidableEq α] (f : α → Bool) (k : α) (v : Bool) : α → Bool :=
  fun k' => if k' = k then v else f k'

/-! ## src/microbit-controller.js — class FourMicrobitController -/

namespace FourMicrobitController

/-- Observable controller state.

`connections p = true` models `this.connections.has(p)` with its stored
record `{connected: true, ...}`: the `connected` flag is set to `true` when
the record is created and is never written again, and `handleDisconnection`
deletes the whole record, so presence and `connected` coincide.
`buttonMappings` maps a port path to its button number and `portToButton`
maps a button number to a port path, exactly as the two JS maps do. -/
structure State where
  connections : String → Bool
  buttonStates : List Bool
  ledStates : List Bool
  buttonMappings : String → Option Int
  portToButton : Int → Option String

/-- Constructor state: no connections, no mappings, all states false. -/
def initState : State where
  connections := fun _ => false
  buttonStates := [false, false, false, false]
  ledStates := [false, false, false, false]
  buttonMappings := fun _ => none
  portToButton := fun _ => none

/-- `registerButton(portPath, buttonNumber)` — only the map writes; the
deferred confirmation flash (`setTimeout` with two `setLED` calls) issues
commands later and touches no map, so it is outside the state model, and the
`microbit-ready` emission carries no state. -/
def registerButton (st : State) (portPath : String) (buttonNumber : Int) : State :=
  if 1 ≤ buttonNumber ∧ buttonNumber ≤ 4 then
    { st with
      buttonMappings := fnUpdate st.buttonMappings portPath (some buttonNumber)
      portToButton := fnUpdate st.portToButton buttonNumber (some portPath) }
  else st

/-- `handleButtonPress(buttonNumber)`: guard `1..4`, then set the slot. -/
def handleButtonPress (st : State) (buttonNumber : Int) : State :=
  if 1 ≤ buttonNumber ∧ buttonNumber ≤ 4 then
    { st with buttonStates := jsArraySet st.buttonStates (buttonNumber - 1) true }
  else st

/-- `handleButtonRelease(buttonNumber)`: guard `1..4`, then clear the slot. -/
def handleButtonRelease (st : State) (buttonNumber : Int) : State :=
  if 1 ≤ buttonNumber ∧ buttonNumber ≤ 4 then
    { st with buttonStates := jsArraySet st.buttonStates (buttonNumber - 1) false }
  else st

/-- `handleDisconnection(portPath)`.  The JS `if (buttonNumber)` truthiness
test is false exactly for `0` among the integers a mapping can hold. -/
def handleDisconnection (st : State) (portPath : String) : State :=
  if st.connections portPath then
    let st1 :=
      match st.buttonMappings portPath with
      | some buttonNumber =>
        if buttonNumber ≠ 0 then
          { st with
            buttonStates := jsArraySet st.buttonStates (buttonNumber - 1) false
            portToButton := fnUpdate st.portToButton buttonNumber none }
        else st
      | none => st
    { st1 with
      buttonMappings := fnUpdate st1.buttonMappings portPath none
      connections := fnSet st1.connections portPath false }
  else st

/-- The decoded form of one incoming line, following the branch structure of
`processMessage`; numeric fields keep their `parseInt` result (`none` = NaN).
For an LED confirmation, `toggle` records `parts[2] === 'TOGGLE'` and
`state` records `parts[2] === 'ON' || parts[2] === 'TOGGLE'`.  Branch bodies
that are skipped because `parts.length < 2` never fire for a message that
passed the `includes('_...')` test (its split always has two fields), and
are mapped to `unrecognized`, whose effect (no state change) agrees. -/
inductive Decoded where
  | ready (n : Option Int)
  | pressed (n : Option Int)
  | released (n : Option Int)
  | ledConfirmed (n : Option Int) (toggle : Bool) (state : Bool)
  | pong
  | unrecognized
deriving DecidableEq

/-- The branch cascade of `processMessage`, as a pure decoder. -/
def decodeMessage (message : String) : Decoded :=
  let cs := message.data
  if isInfixL "BUTTON_".data cs && isInfixL "_READY".data cs then
    let parts := splitOnChar '_' cs
    if parts.length ≥ 2 then .ready (parseIntJS (parts.getD 1 [])) else .unrecognized
  else if isInfixL "BUTTON_".data cs && isInfixL "_PRESSED".data cs then
    let parts := splitOnChar '_' cs
    if parts.length ≥ 2 then .pressed (parseIntJS (parts.getD 1 [])) else .unrecognized
  else if isInfixL "BUTTON_".data cs && isInfixL "_RELEASED".data cs then
    let parts := splitOnChar '_' cs
    if parts.length ≥ 2 then .released (parseIntJS (parts.getD 1 [])) else .unrecognized
  else if isInfixL "LED_".data cs && isInfixL "_CONFIRMED".data cs then
    let parts := splitOnChar '_' cs
    if parts.length ≥ 2 then
      .ledConfirmed (parseIntJS (parts.getD 1 []))
        (parts.getD 2 [] = "TOGGLE".data)
        (parts.getD 2 [] = "ON".data || parts.getD 2 [] = "TOGGLE".data)
    else .unrecognized
  else if isInfixL "PONG_".data cs then .pong
  else .unrecognized

/-- State effect of one decoded line.  A `none` role id is JS `NaN`: the
button handlers reject it by their `1..4` guard, and the LED-confirmation
write lands at array index `NaN`, outside the tracked slots. -/
def applyDecoded (st : State) (portPath : String) : Decoded → State
  | .ready (some n) => registerButton st portPath n
  | .ready none => st
  | .pressed (some n) => handleButtonPress st n
  | .pressed none => st
  | .released (some n) => handleButtonRelease st n
  | .released none => st
  | .ledConfirmed (some n) toggle state =>
    if toggle then
      { st with ledStates :=
          jsArraySet st.ledStates (n - 1) (!(jsArrayGet st.ledStates (n - 1))) }
    else
      { st with ledStates := jsArraySet st.ledStates (n - 1) state }
  | .ledConfirmed none _ _ => st
  | .pong => st
  | .unrecognized => st

/-- `processMessage(portPath, message)`: the falsy-message early return,
then the branch cascade (the `lastActivity` touch is a timestamp only). -/
def processMessage (st : State) (portPath : String) (message : String) : State :=
  if message.data.isEmpty then st
  else applyDecoded st portPath (decodeMessage message)

/-- `sendCommand(portPath, command)`: fails without a live connection,
otherwise writes `command` to the port.  Returns the success flag and the
writes performed. -/
def sendCommand (st : State) (portPath : String) (command : String) :
    Bool × List (String × String) :=
  if st.connections portPath then (true, [(portPath, command)]) else (false, [])

/-- `setLED(buttonNumber, state)`: role lookup, then `LED_ON`/`LED_OFF`.
This method performs no write to `this.ledStates` (the tracked LED state of
this controller changes only when a confirmation line is processed), so it
returns only the success flag and the issued writes. -/
def setLED (st : State) (buttonNumber : Int) (state : Bool) :
    Bool × List (String × String) :=
  match st.portToButton buttonNumber with
  | none => (false, [])
  | some portPath => sendCommand st portPath (if state then "LED_ON" else "LED_OFF")

/-- `setAllLEDs(state)`: issue `setLED` for roles 1–4, collect the results,
return whether every one succeeded together with all issued writes. -/
def setAllLEDs (st : State) (state : Bool) : Bool × List (String × String) :=
  let results := ([1, 2, 3, 4] : List Int).map (fun i => setLED st i state)
  (results.all (fun r => r.1), (results.map (fun r => r.2)).flatten)

/-- External events driving the controller: a successful `connectToMicrobit`
(which stores a `{connected: true}` record), an incoming line on a port, and
a close/error event on a port. -/
inductive Event where
  | connect (portPath : String)
  | line (portPath : String) (message : String)
  | disconnect (portPath : String)

/-- One event step. -/
def step (st : State) : Event → State
  | .connect p => { st with connections := fnSet st.connections p true }
  | .line p msg => processMessage st p msg
  | .disconnect p => handleDisconnection st p

/-- Run a sequence of events. -/
def run (st : State) (es : List Event) : State := es.foldl step st

end FourMicrobitController

/-! ## src/unnamed/part_004 — enhanced FourMicrobitController (HW-484 support) -/

namespace HallSensorController

/-- `this.bikeData`: the stored bike state. -/
structure BikeData where
  revolutions : Int
  rpm : Int
  lastUpdateTime : Nat
  isActive : Bool
deriving DecidableEq

/-- Events emitted by `processBikeSensorData`; the timestamp field is
forwarded as parsed, and is not covered by the validity check (it can be
NaN, hence `Option Int`). -/
inductive BikeEvent where
  | bikeData (revolutions rpm : Int) (timestamp : Option Int) (port : String)
  | microbitData (raw : String)
deriving DecidableEq

/-- `processBikeSensorData(portPath, message)`: parse
`BIKE_REV:<count>:<rpm>:<time>`; drop the sample when count or rpm is NaN
or negative, otherwise replace `this.bikeData` wholesale and emit
`bike-data` and `microbit-data`.  `now` stands for `Date.now()`. -/
def processBikeSensorData (now : Nat) (st : BikeData) (portPath : String)
    (message : String) : BikeData × List BikeEvent :=
  let parts := splitOnChar ':' message.data
  if parts.length ≥ 4 then
    match parseIntJS (parts.getD 1 []), parseIntJS (parts.getD 2 []) with
    | some revolutions, some rpm =>
      if revolutions < 0 ∨ rpm < 0 then (st, [])
      else
        ({ revolutions := revolutions
           rpm := rpm
           lastUpdateTime := now
           isActive := rpm > 0 },
         [.bikeData revolutions rpm (parseIntJS (parts.getD 3 [])) portPath,
          .microbitData message])
    | _, _ => (st, [])
  else (st, [])

/-- The per-element generator inside this file's `randomLEDSequence`: each
of the `count` elements is drawn independently as
`Math.floor(Math.random() * 4) + 1`.  The random source is modelled as a
stream `rand` of naturals, reduced mod 4 exactly onto the range
`Math.floor` produces for a draw in `[0, 1)`. -/
def randomLEDSequenceGen (count : Nat) (rand : Nat → Nat) : List Nat :=
  (List.range count).map (fun i => rand i % 4 + 1)

/-- This file's `simonSaysPattern` builds its pattern with the identical
independent-draw generator. -/
def simonSaysGen (patternLength : Nat) (rand : Nat → Nat) : List Nat :=
  (List.range patternLength).map (fun i => rand i % 4 + 1)

end HallSensorController

/-! ## src/unnamed/part_005 — class MicrobitArcadeController -/

namespace MicrobitArcadeController

/-- Observable state of this controller: `connections` holds the open ports
(close events delete the entry), `microbitMapping` maps a button id to its
port, and the two four-slot state arrays. -/
structure State where
  connections : String → Bool
  microbitMapping : Int → Option String
  buttonStates : List Bool
  ledStates : List Bool

/-- This file's `setLED(buttonNumber, state)`: look up the port for the
button, fail without a mapping or a connection, otherwise write
`LED_ON`/`LED_OFF` and update `this.ledStates[buttonNumber - 1] = state`
optimistically — inside the call itself, before any confirmation line can
have been processed.  Returns (new state, success, writes). -/
def setLED (st : State) (buttonNumber : Int) (state : Bool) :
    State × Bool × List (String × String) :=
  match st.microbitMapping buttonNumber with
  | none => (st, false, [])
  | some portPath =>
    if st.connections portPath then
      ({ st with ledStates := jsArraySet st.ledStates (buttonNumber - 1) state },
       true,
       [(portPath, if state then "LED_ON" else "LED_OFF")])
    else (st, false, [])

/-- JS destructuring swap `[leds[i], leds[j]] = [leds[j], leds[i]]`:
both reads happen before both writes. -/
def listSwap (l : List Nat) (i j : Nat) : List Nat :=
  (l.set i (l.getD j 0)).set j (l.getD i 0)

/-- The Fisher–Yates loop of `generateRandomOrder`:
`for (let i = length - 1; i > 0; i--)` with
`j = Math.floor(Math.random() * (i + 1))`.  The draw at loop index `i` is
modelled as `rand i % (i + 1)`, which ranges over exactly the values
`Math.floor` can produce there. -/
def fyLoop (rand : Nat → Nat) : List Nat → Nat → List Nat
  | l, 0 => l
  | l, i + 1 => fyLoop rand (listSwap l (i + 1) (rand (i + 1) % (i + 2))) i

/-- `generateRandomOrder(count)`: build `[1, …, count]`, then shuffle. -/
def generateRandomOrder (count : Nat) (rand : Nat → Nat) : List Nat :=
  fyLoop rand (List.range' 1 count) (count - 1)

/-- The orders generated across the `totalSequences` iterations of this
file's `randomLEDSequence(count, …, totalSequences)`; iteration `s` uses
its own draws `rand s`. -/
def randomLEDSequenceOrders (count totalSequences : Nat)
    (rand : Nat → Nat → Nat) : List (List Nat) :=
  (List.range totalSequences).map (fun s => generateRandomOrder count (rand s))

/-- The pattern built by `simonSaysPattern(patternLength, …)`: each element
is an independent `Math.floor(Math.random() * 4) + 1`. -/
def simonSaysGen (patternLength : Nat) (rand : Nat → Nat) : List Nat :=
  (List.range patternLength).map (fun i => rand i % 4 + 1)

/-- `simonSaysPattern` generates its pattern, plays it back (for each
element in order: `setLED(led, true)`, a pause, `setLED(led, false)`), and
returns the pattern.  The playback is recorded as the chronological list of
`(led, state)` arguments passed to `setLED`.  part_004 carries a
`simonSaysPattern` with the same generation, playback order and return. -/
def simonSaysPattern (patternLength : Nat) (rand : Nat → Nat) :
    List Nat × List (Nat × Bool) :=
  let pattern := simonSaysGen patternLength rand
  (pattern, (pattern.map (fun led => [(led, true), (led, false)])).flatten)

end MicrobitArcadeController

/-! ## src/unnamed/part_000 — class BikerBeatGame (cadence tracker) -/

namespace BikerBeatGame

/-- The cadence fields of the game state: `currentRevolutions` starts at 0
and is only ever assigned a successfully parsed count, so it stays an
integer; `currentRPM` and `maxRPM` are assigned raw `parseInt` results and
can become NaN (`none`). -/
structure CadenceState where
  currentRevolutions : Int
  currentRPM : Option Int
  maxRPM : Option Int
deriving DecidableEq

/-- Constructor values: all zero. -/
def initCadence : CadenceState where
  currentRevolutions := 0
  currentRPM := some 0
  maxRPM := some 0

/-- JS `revCount > this.currentRevolutions`: false when `revCount` is NaN. -/
def jsGtCur (revCount : Option Int) (cur : Int) : Bool :=
  match revCount with
  | some rc => cur < rc
  | none => false

/-- JS `Math.max` on possibly-NaN numbers: NaN absorbs. -/
def jsMax (a b : Option Int) : Option Int :=
  match a, b with
  | some x, some y => some (max x y)
  | _, _ => none

/-- `processHallSensorData(data)`: parse `BIKE_REV:<count>:<rpm>:<time>`;
call `handleNewRevolution` and store the count only when
`revCount > this.currentRevolutions`; always store `rpm` into
`currentRPM` and fold it into `maxRPM`.  The returned flag records whether
`handleNewRevolution` fired (its animation/score effects are outside the
cadence state). -/
def processHallSensorData (st : CadenceState) (data : String) :
    CadenceState × Bool :=
  let parts := splitOnChar ':' data.data
  if parts.length ≥ 4 then
    let revCount := parseIntJS (parts.getD 1 [])
    let rpm := parseIntJS (parts.getD 2 [])
    let fired := jsGtCur revCount st.currentRevolutions
    let cur' :=
      match revCount with
      | some rc => if st.currentRevolutions < rc then rc else st.currentRevolutions
      | none => st.currentRevolutions
    ({ currentRevolutions := cur'
       currentRPM := rpm
       maxRPM := jsMax st.maxRPM rpm }, fired)
  else (st, false)

end BikerBeatGame

namespace HallSensorController

/-- The rejection test of `processBikeSensorData` on one parsed numeric
field: `isNaN(v) || v < 0`. -/
def invalidCadenceField (cs : List Char) : Bool :=
  match parseIntJS cs with
  | none => true
  | some v => decide (v < 0)

end HallSensorController

/-! ## Protocol message builders, invariant definitions and
concrete example states used by the claims -/

namespace FourMicrobitController

/-- The digit character of a single-digit role id. -/
def digitChar (n : Nat) : Char := Char.ofNat (48 + n)

/-- The device confirmation line `LED_<n>_<mode>_CONFIRMED`. -/
def ledConfirmMsg (n : Nat) (mode : String) : String :=
  String.mk ("LED_".data ++ [digitChar n] ++ "_".data ++ mode.data
    ++ "_CONFIRMED".data)

end FourMicrobitController

namespace FourMicrobitController

/-- The bijection property exactly as the claim (and spec §3) states it,
written from the spec's words for comparison with the code: restricted to
live connections, `buttonMappings` and `portToButton` are mutual
inverses. -/
def RoleBijectionOnLive (st : State) : Prop :=
  ∀ p n, st.connections p = true →
    (st.buttonMappings p = some n ↔ st.portToButton n = some p)

/-- The invariant that does hold along conflict-free traces:
`buttonMappings` and `portToButton` are mutual inverses outright, and every
registered port is live with a role in 1..4.  (It restricts to a bijection
between claimed roles and the registered live connections.) -/
def MapsAgree (st : State) : Prop :=
  (∀ p n, st.buttonMappings p = some n ↔ st.portToButton n = some p)
  ∧ (∀ p n, st.buttonMappings p = some n →
      st.connections p = true ∧ 1 ≤ n ∧ n ≤ 4)

/-- Freshness of one event: a registration line must arrive on a live,
not-yet-registered port and claim a not-yet-claimed role; all other events
are unrestricted. -/
def freshStep (st : State) : Event → Bool
  | .line p msg =>
    match decodeMessage msg with
    | .ready (some n) =>
      st.connections p && (st.buttonMappings p).isNone
        && (st.portToButton n).isNone
    | _ => true
  | _ => true

/-- Freshness of every event along a run. -/
def freshRun : State → List Event → Bool
  | _, [] => true
  | st, e :: es => freshStep st e && freshRun (step st e) es

/-- The duplicate-claim trace: two live ports both identify as button 2. -/
def conflictTrace : List Event :=
  [.connect "A", .connect "B", .line "A" "BUTTON_2_GREEN_READY",
   .line "B" "BUTTON_2_RED_READY"]

end FourMicrobitController

/-- Concrete two-of-four state used by the C10 witness: roles 1 and 2 mapped
to live ports, roles 3 and 4 unmapped. -/
def twoMappedState : FourMicrobitController.State where
  connections := fun p => p = "A" || p = "B"
  buttonStates := [false, false, false, false]
  ledStates := [false, false, false, false]
  buttonMappings := fun p =>
    if p = "A" then some 1 else if p = "B" then some 2 else none
  portToButton := fun n =>
    if n = 1 then some "A" else if n = 2 then some "B" else none

/-- State with role 2 mapped to live port "B" and all LEDs off, for the C6
counterexample (microbit-controller.js). -/
def ledOffMappedState : FourMicrobitController.State where
  connections := fun p => p = "B"
  buttonStates := [false, false, false, false]
  ledStates := [false, false, false, false]
  buttonMappings := fun p => if p = "B" then some 2 else none
  portToButton := fun n => if n = 2 then some "B" else none

/-- State with role 2 mapped to live port "B", for the C6 witness
(part_005 controller). -/
def arcadeOneMapped : MicrobitArcadeController.State where
  connections := fun p => p = "B"
  microbitMapping := fun n => if n = 2 then some "B" else none
  buttonStates := [false, false, false, false]
  ledStates := [false, false, false, false]

/-- State with only role 2's tracked LED on, for the C7 witness. -/
def ledTwoOnState : FourMicrobitController.State where
  connections := fun _ => false
  buttonStates := [false, false, false, false]
  ledStates := [false, true, false, false]
  buttonMappings := fun _ => none
  portToButton := fun _ => none

/-! ## Claims -/

/-- C3: for every incoming cadence sample whose count and rpm fields parse
to integers, the stored cumulative revolution count (the BikerBeatGame
cadence tracker, `processHallSensorData` in part_000 — the `CadenceSample`
store of spec §4.5) is updated iff the sample's count is strictly greater
than the stored count, while the stored rpm is always overwritten with the
sample's rpm.  (The controller-side `bikeData` cache in part_004 instead
overwrites its count unconditionally after validity checks; the spec's
monotonic-gate sentence describes this tracker.) -/
theorem c3_cadence_count_gated_rpm_always (st : BikerBeatGame.CadenceState)
    (data : String) (h0 s1 s2 s3 : List Char) (rest : List (List Char))
    (hsplit : splitOnChar ':' data.data = h0 :: s1 :: s2 :: s3 :: rest)
    (c r : Int) (hc : parseIntJS s1 = some c) (hr : parseIntJS s2 = some r) :
    (BikerBeatGame.processHallSensorData st data).1.currentRevolutions
        = (if st.currentRevolutions < c then c else st.currentRevolutions)
    ∧ (BikerBeatGame.processHallSensorData st data).1.currentRPM = some r
    ∧ ((BikerBeatGame.processHallSensorData st data).1.currentRevolutions
          ≠ st.currentRevolutions ↔ st.currentRevolutions < c) := by
  have hlen : (splitOnChar ':' data.data).length ≥ 4 := by rw [hsplit]; simp
  unfold BikerBeatGame.processHallSensorData
  rw [hsplit]
  simp only [List.getD_cons_succ, List.getD_cons_zero]
  rw [if_pos (by rw [hsplit] at hlen; exact hlen)]
  rw [hc, hr]
  refine ⟨rfl, rfl, ?_⟩
  by_cases h : st.currentRevolutions < c
  · simp [h]; omega
  · simp [h]

/-- Witness for C3, and exactly the example of the claim: with stored count
3 and rpm 60, the sample `(count = 2, rpm = 50)` leaves the count at 3 while
the rpm becomes 50. -/
theorem c3_witness :
    (BikerBeatGame.processHallSensorData ⟨3, some 60, some 60⟩
        "BIKE_REV:2:50:100").1.currentRevolutions = 3
    ∧ (BikerBeatGame.processHallSensorData ⟨3, some 60, some 60⟩
        "BIKE_REV:2:50:100").1.currentRPM = some 50 := by
  have h := c3_cadence_count_gated_rpm_always ⟨3, some 60, some 60⟩
    "BIKE_REV:2:50:100" "BIKE_REV".data "2".data "50".data "100".data []
    (by decide) 2 50 (by decide) (by decide)
  refine ⟨?_, h.2.1⟩
  rw [h.1]
  norm_num

/-- C4: a `BIKE_REV` line whose parsed revolution count or rpm is NaN or
negative is dropped atomically by `processBikeSensorData` (part_004): no
event is emitted and the stored bike state — `revolutions`, `rpm`,
`isActive` and all — is returned unchanged. -/
theorem c4_invalid_bike_sample_dropped (now : Nat)
    (st : HallSensorController.BikeData) (portPath message : String)
    (hbad : HallSensorController.invalidCadenceField
        ((splitOnChar ':' message.data).getD 1 []) = true
      ∨ HallSensorController.invalidCadenceField
        ((splitOnChar ':' message.data).getD 2 []) = true) :
    HallSensorController.processBikeSensorData now st portPath message
      = (st, []) := by
  unfold HallSensorController.processBikeSensorData
  cases hlen : decide ((splitOnChar ':' message.data).length ≥ 4) with
  | false =>
    rw [if_neg (by exact of_decide_eq_false hlen)]
  | true =>
    rw [if_pos (of_decide_eq_true hlen)]
    cases hp1 : parseIntJS ((splitOnChar ':' message.data).getD 1 []) with
    | none => rfl
    | some rv =>
      cases hp2 : parseIntJS ((splitOnChar ':' message.data).getD 2 []) with
      | none => rfl
      | some rp =>
        have hneg : rv < 0 ∨ rp < 0 := by
          unfold HallSensorController.invalidCadenceField at hbad
          rw [hp1, hp2] at hbad
          rcases hbad with h | h
          · exact Or.inl (of_decide_eq_true h)
          · exact Or.inr (of_decide_eq_true h)
        dsimp only
        rw [if_pos hneg]

/-- Witness for C4: the line `BIKE_REV:-1:60:100` (negative count) leaves a
concrete stored state untouched and emits nothing. -/
theorem c4_witness :
    HallSensorController.processBikeSensorData 777
        ⟨5, 80, 123, true⟩ "COM3" "BIKE_REV:-1:60:100"
      = (⟨5, 80, 123, true⟩, []) :=
  c4_invalid_bike_sample_dropped 777 ⟨5, 80, 123, true⟩ "COM3"
    "BIKE_REV:-1:60:100" (Or.inl (by decide))

/-- Helper for C8: filtering the playback trace down to the `setLED(_, true)`
calls and projecting their targets recovers the pattern. -/
theorem playback_on_calls_eq (l : List Nat) :
    (((l.map (fun led => [(led, true), (led, false)])).flatten.filter
        (fun e => e.2)).map Prod.fst) = l := by
  induction l with
  | nil => rfl
  | cons a t ih => simpa using ih

/-- C8: for every length `n` and random stream, `simonSaysPattern` returns a
pattern of exactly `n` elements, each in `1..4`, and the sequence of LEDs it
lit during playback, in order, is exactly the returned pattern.  (The
playback speed only scales the pauses between the recorded `setLED` calls
and cannot change the sequence, which is generated before playback.) -/
theorem c8_simon_pattern_shape (n : Nat) (rand : Nat → Nat) :
    (MicrobitArcadeController.simonSaysPattern n rand).1.length = n
    ∧ (∀ x ∈ (MicrobitArcadeController.simonSaysPattern n rand).1,
        1 ≤ x ∧ x ≤ 4)
    ∧ (((MicrobitArcadeController.simonSaysPattern n rand).2.filter
          (fun e => e.2)).map Prod.fst)
        = (MicrobitArcadeController.simonSaysPattern n rand).1 := by
  refine ⟨by simp [MicrobitArcadeController.simonSaysPattern,
    MicrobitArcadeController.simonSaysGen], ?_, ?_⟩
  · intro x hx
    simp [MicrobitArcadeController.simonSaysPattern,
      MicrobitArcadeController.simonSaysGen] at hx
    obtain ⟨i, _, rfl⟩ := hx
    have := Nat.mod_lt (rand i) (show 0 < 4 by norm_num)
    omega
  · exact playback_on_calls_eq _

/-- Witness for C8 at `n = 3` with the identity stream: the pattern is
`[1, 2, 3]`. -/
theorem c8_witness :
    (MicrobitArcadeController.simonSaysPattern 3 (fun i => i)).1.length = 3
    ∧ 1 ≤ (MicrobitArcadeController.simonSaysPattern 3 (fun i => i)).1.getD 0 0
    ∧ (MicrobitArcadeController.simonSaysPattern 3 (fun i => i)).1.getD 0 0
        ≤ 4 := by
  have h := c8_simon_pattern_shape 3 (fun i => i)
  have hm := h.2.1 ((MicrobitArcadeController.simonSaysPattern 3
    (fun i => i)).1.getD 0 0) (by decide)
  exact ⟨h.1, hm.1, hm.2⟩

/-- C10: `setAllLEDs(state)` (microbit-controller.js) reports success iff
each of the four per-role `setLED` calls it makes reports success; whenever
some role in 1..4 has no mapped port it reports failure, yet every write any
of the four `setLED` calls issues (i.e. the commands to the mapped, live
devices) is still among the writes it performs. -/
theorem c10_setAllLEDs_conjunction (st : FourMicrobitController.State)
    (b : Bool) :
    ((FourMicrobitController.setAllLEDs st b).1 = true ↔
      ∀ i ∈ ([1, 2, 3, 4] : List Int),
        (FourMicrobitController.setLED st i b).1 = true)
    ∧ ((∃ i ∈ ([1, 2, 3, 4] : List Int), st.portToButton i = none) →
        (FourMicrobitController.setAllLEDs st b).1 = false)
    ∧ (∀ i ∈ ([1, 2, 3, 4] : List Int),
        ∀ e ∈ (FourMicrobitController.setLED st i b).2,
          e ∈ (FourMicrobitController.setAllLEDs st b).2) := by
  have hiff : (FourMicrobitController.setAllLEDs st b).1 = true ↔
      ∀ i ∈ ([1, 2, 3, 4] : List Int),
        (FourMicrobitController.setLED st i b).1 = true := by
    simp [FourMicrobitController.setAllLEDs, List.all_eq_true]
  refine ⟨hiff, ?_, ?_⟩
  · rintro ⟨i, hi, hnone⟩
    cases h : (FourMicrobitController.setAllLEDs st b).1 with
    | false => rfl
    | true =>
      have := (hiff.mp h) i hi
      rw [FourMicrobitController.setLED, hnone] at this
      exact absurd this (by simp)
  · intro i hi e he
    simp only [FourMicrobitController.setAllLEDs, List.mem_flatten,
      List.mem_map]
    exact ⟨(FourMicrobitController.setLED st i b).2,
      ⟨FourMicrobitController.setLED st i b, ⟨i, hi, rfl⟩, rfl⟩, he⟩


/-- Witness for C10: with only roles 1 and 2 mapped, `setAllLEDs(true)`
returns false, yet the `LED_ON` write to role 1's port is still issued. -/
theorem c10_witness :
    (FourMicrobitController.setAllLEDs twoMappedState true).1 = false
    ∧ ("A", "LED_ON") ∈ (FourMicrobitController.setAllLEDs
        twoMappedState true).2 := by
  have h := c10_setAllLEDs_conjunction twoMappedState true
  exact ⟨h.2.1 ⟨3, by decide, by decide⟩,
    h.2.2 1 (by decide) ("A", "LED_ON") (by decide)⟩

/-- C5, counterexample to the claim as stated: in part_004's
`randomLEDSequence`, each of the 4 elements is an independent draw, so the
run in which every `Math.random()` draw falls in `[0, 0.25)` generates
`[1, 1, 1, 1]`, which is not a permutation of `{1, 2, 3, 4}`. -/
theorem c5_counterexample :
    HallSensorController.randomLEDSequenceGen 4 (fun _ => 0) = [1, 1, 1, 1]
    ∧ ¬ (HallSensorController.randomLEDSequenceGen 4 (fun _ => 0)).Perm
        [1, 2, 3, 4] := by
  constructor
  · decide
  · decide

/-- Helper for C5: three in-bounds destructuring swaps on `[1, 2, 3, 4]`
always yield a permutation of it, whatever indices are drawn. -/
theorem swaps4_perm (a b c : Nat) (ha : a < 4) (hb : b < 3) (hc : c < 2) :
    (MicrobitArcadeController.listSwap (MicrobitArcadeController.listSwap
      (MicrobitArcadeController.listSwap [1, 2, 3, 4] 3 a) 2 b) 1 c).Perm
      [1, 2, 3, 4] := by
  interval_cases a <;> interval_cases b <;> interval_cases c <;> decide

/-- C5, amended: in part_005's `randomLEDSequence`, every generated order
(one per sequence iteration, built by `generateRandomOrder(4)`'s
Fisher–Yates shuffle) is a permutation of `{1, 2, 3, 4}` — length 4, no
repeats, no omissions — for any values drawn from the random source. -/
theorem c5_fisher_yates_orders (totalSequences : Nat)
    (rand : Nat → Nat → Nat) :
    ∀ ord ∈ MicrobitArcadeController.randomLEDSequenceOrders 4
        totalSequences rand, ord.Perm [1, 2, 3, 4] := by
  intro ord hord
  simp [MicrobitArcadeController.randomLEDSequenceOrders] at hord
  obtain ⟨s, _, rfl⟩ := hord
  have hshape : MicrobitArcadeController.generateRandomOrder 4 (rand s)
      = MicrobitArcadeController.listSwap (MicrobitArcadeController.listSwap
          (MicrobitArcadeController.listSwap [1, 2, 3, 4] 3 (rand s 3 % 4)) 2
          (rand s 2 % 3)) 1 (rand s 1 % 2) := rfl
  rw [hshape]
  exact swaps4_perm _ _ _ (Nat.mod_lt _ (by norm_num))
    (Nat.mod_lt _ (by norm_num)) (Nat.mod_lt _ (by norm_num))

/-- Witness for C5 (amended): with all draws 0 the single generated order is
`[2, 3, 4, 1]`, a permutation of `{1, 2, 3, 4}`. -/
theorem c5_witness :
    (MicrobitArcadeController.generateRandomOrder 4 (fun _ => 0)).Perm
      [1, 2, 3, 4] :=
  c5_fisher_yates_orders 1 (fun _ _ => 0)
    (MicrobitArcadeController.generateRandomOrder 4 (fun _ => 0)) (by decide)

/-- In-bounds JS array write is `List.set`. -/
theorem jsArraySet_inbounds (l : List Bool) (i : Int) (v : Bool)
    (h0 : 0 ≤ i) (hl : i < (l.length : Int)) :
    jsArraySet l i v = l.set i.toNat v :=
  if_pos ⟨h0, hl⟩

/-- In-bounds JS array read is `List.getD`. -/
theorem jsArrayGet_inbounds (l : List Bool) (i : Int)
    (h0 : 0 ≤ i) (hl : i < (l.length : Int)) :
    jsArrayGet l i = l.getD i.toNat false :=
  if_pos ⟨h0, hl⟩

/-- Reading back an in-bounds slot just written. -/
theorem jsArrayGet_jsArraySet_self (l : List Bool) (i : Int) (v : Bool)
    (h0 : 0 ≤ i) (hl : i < (l.length : Int)) :
    jsArrayGet (jsArraySet l i v) i = v := by
  rw [jsArraySet_inbounds l i v h0 hl,
    jsArrayGet_inbounds _ i h0 (by rw [List.length_set]; exact hl)]
  have hi : i.toNat < l.length := by omega
  rw [List.getD_eq_getElem?_getD, List.getElem?_set_eq_of_lt _ hi]
  rfl


/-- C6, counterexample to the claim as stated: `setLED` of
microbit-controller.js contains no write to `this.ledStates` (its embedding
is therefore read-only on the state), so immediately after a successful
`setLED(2, true)` the tracked LED state of role 2 is still `false`; it
becomes `true` only when the device's `LED_2_ON_CONFIRMED` line is later
processed.  The optimistic update the claim describes is absent from this
controller. -/
theorem c6_counterexample :
    (FourMicrobitController.setLED ledOffMappedState 2 true).1 = true
    ∧ jsArrayGet ledOffMappedState.ledStates ((2 : Int) - 1) = false
    ∧ jsArrayGet (FourMicrobitController.processMessage ledOffMappedState "B"
        "LED_2_ON_CONFIRMED").ledStates ((2 : Int) - 1) = true := by
  refine ⟨by decide, by decide, by decide⟩

/-- C6, amended: in part_005's `MicrobitArcadeController`, `setLED(n, true)`
on a mapped, live role returns success and has already set the tracked LED
state of role `n` to `true` inside the call itself — before any
confirmation line can have been processed. -/
theorem c6_optimistic_led_update (st : MicrobitArcadeController.State)
    (n : Int) (portPath : String)
    (h1 : 1 ≤ n) (h4 : n ≤ 4) (hlen : st.ledStates.length = 4)
    (hmap : st.microbitMapping n = some portPath)
    (hconn : st.connections portPath = true) :
    (MicrobitArcadeController.setLED st n true).2.1 = true
    ∧ jsArrayGet (MicrobitArcadeController.setLED st n true).1.ledStates
        (n - 1) = true := by
  simp only [MicrobitArcadeController.setLED, hmap, hconn, if_true]
  refine ⟨by trivial, ?_⟩
  exact jsArrayGet_jsArraySet_self st.ledStates (n - 1) true (by omega)
    (by rw [hlen]; omega)


/-- Witness for C6 (amended) at role 2 of a concrete state. -/
theorem c6_witness :
    (MicrobitArcadeController.setLED arcadeOneMapped 2 true).2.1 = true
    ∧ jsArrayGet (MicrobitArcadeController.setLED arcadeOneMapped
        2 true).1.ledStates ((2 : Int) - 1) = true := by
  have h := c6_optimistic_led_update arcadeOneMapped 2 "B" (by norm_num)
    (by norm_num) (by decide) (by decide) (by decide)
  exact ⟨h.1, h.2⟩


/-- Effect of a decoded toggle confirmation on the LED slots. -/
theorem applyDecoded_toggle (st : FourMicrobitController.State) (p : String)
    (k : Int) (h1 : 1 ≤ k) (h4 : k ≤ 4) (hlen : st.ledStates.length = 4)
    (s : Bool) :
    (FourMicrobitController.applyDecoded st p
        (.ledConfirmed (some k) true s)).ledStates
      = st.ledStates.set (k - 1).toNat
          (!(st.ledStates.getD (k - 1).toNat false)) := by
  simp only [FourMicrobitController.applyDecoded, if_true]
  rw [jsArraySet_inbounds _ _ _ (by omega) (by rw [hlen]; omega),
    jsArrayGet_inbounds _ _ (by omega) (by rw [hlen]; omega)]

/-- Effect of a decoded absolute (`ON`/`OFF`) confirmation on the slots. -/
theorem applyDecoded_absolute (st : FourMicrobitController.State)
    (p : String) (k : Int) (h1 : 1 ≤ k) (h4 : k ≤ 4)
    (hlen : st.ledStates.length = 4) (s : Bool) :
    (FourMicrobitController.applyDecoded st p
        (.ledConfirmed (some k) false s)).ledStates
      = st.ledStates.set (k - 1).toNat s := by
  simp only [FourMicrobitController.applyDecoded, Bool.false_eq_true,
    if_false]
  rw [jsArraySet_inbounds _ _ _ (by omega) (by rw [hlen]; omega)]

/-- C7: for every role id `n` in 1..4 and any current tracked LED states,
processing `LED_n_TOGGLE_CONFIRMED` inverts the tracked state of role `n`
(relative to its previous value, not an absolute write), while
`LED_n_ON_CONFIRMED` and `LED_n_OFF_CONFIRMED` set it absolutely to `true`
resp. `false`.  (part_004 carries the identical confirmation branch.) -/
theorem c7_toggle_inverts (n : Nat) (h1 : 1 ≤ n) (h4 : n ≤ 4)
    (st : FourMicrobitController.State) (p : String)
    (hlen : st.ledStates.length = 4) :
    (FourMicrobitController.processMessage st p
        (FourMicrobitController.ledConfirmMsg n "TOGGLE")).ledStates
      = st.ledStates.set (n - 1) (!(st.ledStates.getD (n - 1) false))
    ∧ (FourMicrobitController.processMessage st p
        (FourMicrobitController.ledConfirmMsg n "ON")).ledStates
      = st.ledStates.set (n - 1) true
    ∧ (FourMicrobitController.processMessage st p
        (FourMicrobitController.ledConfirmMsg n "OFF")).ledStates
      = st.ledStates.set (n - 1) false := by
  interval_cases n
  · refine ⟨?_, ?_, ?_⟩
    · simp only [FourMicrobitController.processMessage]
      rw [if_neg (by decide),
        show FourMicrobitController.decodeMessage
            (FourMicrobitController.ledConfirmMsg 1 "TOGGLE")
          = .ledConfirmed (some 1) true true from by decide]
      rw [applyDecoded_toggle st p 1 (by norm_num) (by norm_num) hlen]
      rfl
    · simp only [FourMicrobitController.processMessage]
      rw [if_neg (by decide),
        show FourMicrobitController.decodeMessage
            (FourMicrobitController.ledConfirmMsg 1 "ON")
          = .ledConfirmed (some 1) false true from by decide]
      rw [applyDecoded_absolute st p 1 (by norm_num) (by norm_num) hlen]
      rfl
    · simp only [FourMicrobitController.processMessage]
      rw [if_neg (by decide),
        show FourMicrobitController.decodeMessage
            (FourMicrobitController.ledConfirmMsg 1 "OFF")
          = .ledConfirmed (some 1) false false from by decide]
      rw [applyDecoded_absolute st p 1 (by norm_num) (by norm_num) hlen]
      rfl
  · refine ⟨?_, ?_, ?_⟩
    · simp only [FourMicrobitController.processMessage]
      rw [if_neg (by decide),
        show FourMicrobitController.decodeMessage
            (FourMicrobitController.ledConfirmMsg 2 "TOGGLE")
          = .ledConfirmed (some 2) true true from by decide]
      rw [applyDecoded_toggle st p 2 (by norm_num) (by norm_num) hlen]
      rfl
    · simp only [FourMicrobitController.processMessage]
      rw [if_neg (by decide),
        show FourMicrobitController.decodeMessage
            (FourMicrobitController.ledConfirmMsg 2 "ON")
          = .ledConfirmed (some 2) false true from by decide]
      rw [applyDecoded_absolute st p 2 (by norm_num) (by norm_num) hlen]
      rfl
    · simp only [FourMicrobitController.processMessage]
      rw [if_neg (by decide),
        show FourMicrobitController.decodeMessage
            (FourMicrobitController.ledConfirmMsg 2 "OFF")
          = .ledConfirmed (some 2) false false from by decide]
      rw [applyDecoded_absolute st p 2 (by norm_num) (by norm_num) hlen]
      rfl
  · refine ⟨?_, ?_, ?_⟩
    · simp only [FourMicrobitController.processMessage]
      rw [if_neg (by decide),
        show FourMicrobitController.decodeMessage
            (FourMicrobitController.ledConfirmMsg 3 "TOGGLE")
          = .ledConfirmed (some 3) true true from by decide]
      rw [applyDecoded_toggle st p 3 (by norm_num) (by norm_num) hlen]
      rfl
    · simp only [FourMicrobitController.processMessage]
      rw [if_neg (by decide),
        show FourMicrobitController.decodeMessage
            (FourMicrobitController.ledConfirmMsg 3 "ON")
          = .ledConfirmed (some 3) false true from by decide]
      rw [applyDecoded_absolute st p 3 (by norm_num) (by norm_num) hlen]
      rfl
    · simp only [FourMicrobitController.processMessage]
      rw [if_neg (by decide),
        show FourMicrobitController.decodeMessage
            (FourMicrobitController.ledConfirmMsg 3 "OFF")
          = .ledConfirmed (some 3) false false from by decide]
      rw [applyDecoded_absolute st p 3 (by norm_num) (by norm_num) hlen]
      rfl
  · refine ⟨?_, ?_, ?_⟩
    · simp only [FourMicrobitController.processMessage]
      rw [if_neg (by decide),
        show FourMicrobitController.decodeMessage
            (FourMicrobitController.ledConfirmMsg 4 "TOGGLE")
          = .ledConfirmed (some 4) true true from by decide]
      rw [applyDecoded_toggle st p 4 (by norm_num) (by norm_num) hlen]
      rfl
    · simp only [FourMicrobitController.processMessage]
      rw [if_neg (by decide),
        show FourMicrobitController.decodeMessage
            (FourMicrobitController.ledConfirmMsg 4 "ON")
          = .ledConfirmed (some 4) false true from by decide]
      rw [applyDecoded_absolute st p 4 (by norm_num) (by norm_num) hlen]
      rfl
    · simp only [FourMicrobitController.processMessage]
      rw [if_neg (by decide),
        show FourMicrobitController.decodeMessage
            (FourMicrobitController.ledConfirmMsg 4 "OFF")
          = .ledConfirmed (some 4) false false from by decide]
      rw [applyDecoded_absolute st p 4 (by norm_num) (by norm_num) hlen]
      rfl


/-- Witness for C7: with role 2's tracked LED on, `LED_2_TOGGLE_CONFIRMED`
turns it off (inversion), while `LED_2_ON_CONFIRMED` leaves it on. -/
theorem c7_witness :
    (FourMicrobitController.processMessage ledTwoOnState "P"
        (FourMicrobitController.ledConfirmMsg 2 "TOGGLE")).ledStates
      = [false, false, false, false]
    ∧ (FourMicrobitController.processMessage ledTwoOnState "P"
        (FourMicrobitController.ledConfirmMsg 2 "ON")).ledStates
      = [false, true, false, false] := by
  have h := c7_toggle_inverts 2 (by norm_num) (by norm_num) ledTwoOnState "P"
    (by decide)
  refine ⟨?_, ?_⟩
  · rw [h.1]; decide
  · rw [h.2.1]; decide

/-- C9: `processMessage` (microbit-controller.js) is a total function of the
incoming line — every line, well-formed or not, produces a successor state
rather than an exception (the shallow embedding is a total Lean function,
and the JS path contains no throwing operation: `parseInt` yields NaN and
out-of-range indexing is absorbing) — and any line whose decoding is
`unrecognized` (it matches none of the known message shapes) leaves the
state — button states, LED states, role mappings, connections — unchanged.
Lines that match a shape but whose role id fails to parse
(`BUTTON_X_PRESSED`) or lies outside 1..4 (`BUTTON_9_READY`), and the empty
line, also leave the state unchanged. -/
theorem c9_malformed_lines_harmless :
    (∀ (st : FourMicrobitController.State) (p msg : String),
      FourMicrobitController.decodeMessage msg
          = FourMicrobitController.Decoded.unrecognized →
        FourMicrobitController.processMessage st p msg = st)
    ∧ (∀ (st : FourMicrobitController.State) (p : String),
        FourMicrobitController.processMessage st p "BUTTON_X_PRESSED" = st)
    ∧ (∀ (st : FourMicrobitController.State) (p : String),
        FourMicrobitController.processMessage st p "BUTTON_9_READY" = st)
    ∧ (∀ (st : FourMicrobitController.State) (p : String),
        FourMicrobitController.processMessage st p "" = st) := by
  refine ⟨?_, ?_, ?_, ?_⟩
  · intro st p msg h
    unfold FourMicrobitController.processMessage
    by_cases he : msg.data.isEmpty
    · rw [if_pos he]
    · rw [if_neg he, h]; rfl
  · intro st p
    unfold FourMicrobitController.processMessage
    rw [if_neg (by decide),
      show FourMicrobitController.decodeMessage "BUTTON_X_PRESSED"
        = FourMicrobitController.Decoded.pressed none from by decide]
    rfl
  · intro st p
    unfold FourMicrobitController.processMessage
    rw [if_neg (by decide),
      show FourMicrobitController.decodeMessage "BUTTON_9_READY"
        = FourMicrobitController.Decoded.ready (some 9) from by decide]
    dsimp only [FourMicrobitController.applyDecoded]
    unfold FourMicrobitController.registerButton
    rw [if_neg (by omega)]
  · intro st p
    unfold FourMicrobitController.processMessage
    rw [if_pos (by decide)]

/-- Witness for C9: a free-text line decodes to `unrecognized` and leaves
the constructor state unchanged. -/
theorem c9_witness :
    FourMicrobitController.processMessage FourMicrobitController.initState
      "P" "HELLO WORLD" = FourMicrobitController.initState :=
  c9_malformed_lines_harmless.1 FourMicrobitController.initState "P"
    "HELLO WORLD" (by decide)

/-- C1: if the connection on port `p` holds button role `R` (1..4) and a
close or error event for `p` is processed, `handleDisconnection` removes
`R` from the role-to-port map, so that (a) any subsequent `setLED(R, _)`
fails (returns false, no write), and (b) a later `BUTTON_R_..._READY`
identification from a different live port `q` re-claims `R`
(`registerButton` maps `R` to `q`), after which `setLED(R, _)` succeeds
again. -/
theorem c1_disconnect_frees_role (st : FourMicrobitController.State)
    (p q : String) (R : Int) (hR1 : 1 ≤ R) (hR4 : R ≤ 4)
    (hlive : st.connections p = true)
    (hbm : st.buttonMappings p = some R)
    (hq : st.connections q = true) (hqp : q ≠ p) :
    (FourMicrobitController.handleDisconnection st p).portToButton R = none
    ∧ (∀ b, (FourMicrobitController.setLED
        (FourMicrobitController.handleDisconnection st p) R b).1 = false)
    ∧ (FourMicrobitController.registerButton
        (FourMicrobitController.handleDisconnection st p) q R).portToButton R
      = some q
    ∧ (∀ b, (FourMicrobitController.setLED
        (FourMicrobitController.registerButton
          (FourMicrobitController.handleDisconnection st p) q R) R b).1
      = true) := by
  have hR0 : R ≠ 0 := by omega
  have hd : FourMicrobitController.handleDisconnection st p
      = { st with
          buttonStates := jsArraySet st.buttonStates (R - 1) false
          portToButton := fnUpdate st.portToButton R none
          buttonMappings := fnUpdate st.buttonMappings p none
          connections := fnSet st.connections p false } := by
    unfold FourMicrobitController.handleDisconnection
    rw [if_pos hlive, hbm]
    dsimp only
    rw [if_pos hR0]
  rw [hd]
  refine ⟨by simp [fnUpdate], ?_, ?_, ?_⟩
  · intro b
    simp [FourMicrobitController.setLED, fnUpdate]
  · unfold FourMicrobitController.registerButton
    rw [if_pos ⟨hR1, hR4⟩]
    simp [fnUpdate]
  · intro b
    unfold FourMicrobitController.registerButton
    rw [if_pos ⟨hR1, hR4⟩]
    simp only [FourMicrobitController.setLED, FourMicrobitController.sendCommand,
      fnUpdate, fnSet, if_pos]
    simp [hqp, hq]

/-- Witness for C1: disconnecting port "A" (holding role 1) frees role 1,
`setLED(1, _)` fails, port "B" re-claims role 1 and `setLED(1, _)` succeeds
again. -/
theorem c1_witness :
    (FourMicrobitController.handleDisconnection twoMappedState
        "A").portToButton 1 = none
    ∧ (FourMicrobitController.setLED
        (FourMicrobitController.handleDisconnection twoMappedState "A")
        1 true).1 = false
    ∧ (FourMicrobitController.registerButton
        (FourMicrobitController.handleDisconnection twoMappedState "A")
        "B" 1).portToButton 1 = some "B"
    ∧ (FourMicrobitController.setLED (FourMicrobitController.registerButton
        (FourMicrobitController.handleDisconnection twoMappedState "A")
        "B" 1) 1 false).1 = true := by
  have h := c1_disconnect_frees_role twoMappedState "A" "B" 1 (by norm_num)
    (by norm_num) (by decide) (by decide) (by decide) (by decide)
  exact ⟨h.1, h.2.1 true, h.2.2.1, h.2.2.2 false⟩

/-! ## C2 machinery: pointwise map lemmas and the registration invariant -/

theorem fnUpdate_same {α β : Type} [DecidableEq α] (f : α → Option β) (k : α)
    (v : Option β) : fnUpdate f k v k = v := if_pos rfl

theorem fnUpdate_other {α β : Type} [DecidableEq α] (f : α → Option β)
    (k k' : α) (v : Option β) (h : k' ≠ k) : fnUpdate f k v k' = f k' :=
  if_neg h

theorem fnSet_same {α : Type} [DecidableEq α] (f : α → Bool) (k : α)
    (v : Bool) : fnSet f k v k = v := if_pos rfl

theorem fnSet_other {α : Type} [DecidableEq α] (f : α → Bool) (k k' : α)
    (v : Bool) (h : k' ≠ k) : fnSet f k v k' = f k' := if_neg h

namespace FourMicrobitController


/-- `registerButton` with an in-range role, as an explicit record. -/
theorem registerButton_eq (st : State) (p : String) (n : Int)
    (hn : 1 ≤ n ∧ n ≤ 4) :
    registerButton st p n
      = { st with
          buttonMappings := fnUpdate st.buttonMappings p (some n)
          portToButton := fnUpdate st.portToButton n (some p) } := by
  unfold registerButton
  rw [if_pos hn]

/-- `handleDisconnection` of a live, role-holding port, as an explicit
record. -/
theorem handleDisconnection_eq_some (st : State) (p : String) (n0 : Int)
    (hc : st.connections p = true) (hbm : st.buttonMappings p = some n0)
    (hn0 : n0 ≠ 0) :
    handleDisconnection st p
      = { st with
          buttonStates := jsArraySet st.buttonStates (n0 - 1) false
          portToButton := fnUpdate st.portToButton n0 none
          buttonMappings := fnUpdate st.buttonMappings p none
          connections := fnSet st.connections p false } := by
  unfold handleDisconnection
  rw [if_pos hc, hbm]
  dsimp only
  rw [if_pos hn0]

/-- `handleDisconnection` of a live, role-less port, as an explicit
record. -/
theorem handleDisconnection_eq_none (st : State) (p : String)
    (hc : st.connections p = true) (hbm : st.buttonMappings p = none) :
    handleDisconnection st p
      = { st with
          buttonMappings := fnUpdate st.buttonMappings p none
          connections := fnSet st.connections p false } := by
  unfold handleDisconnection
  rw [if_pos hc, hbm]

/-- A fresh registration preserves the map invariant. -/
theorem mapsAgree_registerButton (st : State) (p : String) (n : Int)
    (hA : MapsAgree st) (hp : st.connections p = true)
    (hbm : st.buttonMappings p = none) (hpb : st.portToButton n = none) :
    MapsAgree (registerButton st p n) := by
  obtain ⟨hiff, hlive⟩ := hA
  by_cases hn : 1 ≤ n ∧ n ≤ 4
  · rw [registerButton_eq st p n hn]
    constructor
    · intro p' m
      dsimp only
      by_cases hpp : p' = p <;> by_cases hmn : m = n
      · rw [hpp, hmn, fnUpdate_same, fnUpdate_same]
        simp
      · rw [hpp, fnUpdate_same, fnUpdate_other _ _ _ _ hmn]
        constructor
        · intro h
          exact absurd (Option.some.inj h) (fun e => hmn e.symm)
        · intro h
          have h2 := (hiff p m).mpr h
          rw [hbm] at h2
          exact Option.noConfusion h2
      · rw [hmn, fnUpdate_other _ _ _ _ hpp, fnUpdate_same]
        constructor
        · intro h
          have h2 := (hiff p' n).mp h
          rw [hpb] at h2
          exact Option.noConfusion h2
        · intro h
          exact absurd (Option.some.inj h) (fun e => hpp e.symm)
      · rw [fnUpdate_other _ _ _ _ hpp, fnUpdate_other _ _ _ _ hmn]
        exact hiff p' m
    · intro p' m
      dsimp only
      by_cases hpp : p' = p
      · rw [hpp, fnUpdate_same]
        intro h
        have he := Option.some.inj h
        rw [← he]
        exact ⟨hp, hn.1, hn.2⟩
      · rw [fnUpdate_other _ _ _ _ hpp]
        exact hlive p' m
  · unfold registerButton
    rw [if_neg hn]
    exact ⟨hiff, hlive⟩

/-- Any disconnection preserves the map invariant. -/
theorem mapsAgree_handleDisconnection (st : State) (p : String)
    (hA : MapsAgree st) : MapsAgree (handleDisconnection st p) := by
  obtain ⟨hiff, hlive⟩ := hA
  by_cases hc : st.connections p = true
  · cases hbm : st.buttonMappings p with
    | none =>
      rw [handleDisconnection_eq_none st p hc hbm]
      constructor
      · intro p' m
        dsimp only
        by_cases hpp : p' = p
        · rw [hpp, fnUpdate_same]
          constructor
          · intro h
            exact Option.noConfusion h
          · intro h
            have h2 := (hiff p m).mpr h
            rw [hbm] at h2
            exact Option.noConfusion h2
        · rw [fnUpdate_other _ _ _ _ hpp]
          exact hiff p' m
      · intro p' m
        dsimp only
        by_cases hpp : p' = p
        · rw [hpp, fnUpdate_same]
          intro h
          exact Option.noConfusion h
        · rw [fnUpdate_other _ _ _ _ hpp, fnSet_other _ _ _ _ hpp]
          exact hlive p' m
    | some n0 =>
      have hb := hlive p n0 hbm
      have hpbn0 : st.portToButton n0 = some p := (hiff p n0).mp hbm
      rw [handleDisconnection_eq_some st p n0 hc hbm (by omega)]
      constructor
      · intro p' m
        dsimp only
        by_cases hpp : p' = p <;> by_cases hmn : m = n0
        · rw [hpp, hmn, fnUpdate_same, fnUpdate_same]
          simp
        · rw [hpp, fnUpdate_same, fnUpdate_other _ _ _ _ hmn]
          constructor
          · intro h
            exact Option.noConfusion h
          · intro h
            have h2 := (hiff p m).mpr h
            rw [hbm] at h2
            exact absurd (Option.some.inj h2).symm hmn
        · rw [hmn, fnUpdate_other _ _ _ _ hpp, fnUpdate_same]
          constructor
          · intro h
            have h2 := (hiff p' n0).mp h
            rw [hpbn0] at h2
            exact absurd (Option.some.inj h2).symm hpp
          · intro h
            exact Option.noConfusion h
        · rw [fnUpdate_other _ _ _ _ hpp, fnUpdate_other _ _ _ _ hmn]
          exact hiff p' m
      · intro p' m
        dsimp only
        by_cases hpp : p' = p
        · rw [hpp, fnUpdate_same]
          intro h
          exact Option.noConfusion h
        · rw [fnUpdate_other _ _ _ _ hpp, fnSet_other _ _ _ _ hpp]
          exact hlive p' m
  · unfold handleDisconnection
    rw [if_neg hc]
    exact ⟨hiff, hlive⟩

/-- Every decoded line other than a parsed identification leaves the two
role maps and the connection set untouched. -/
theorem maps_unchanged_applyDecoded (st : State) (p : String) (d : Decoded)
    (h : ∀ n : Int, d ≠ .ready (some n)) :
    (applyDecoded st p d).buttonMappings = st.buttonMappings
    ∧ (applyDecoded st p d).portToButton = st.portToButton
    ∧ (applyDecoded st p d).connections = st.connections := by
  cases d with
  | ready n =>
    cases n with
    | some k => exact absurd rfl (h k)
    | none => exact ⟨rfl, rfl, rfl⟩
  | pressed n =>
    cases n with
    | some k =>
      dsimp only [applyDecoded]
      unfold handleButtonPress
      split_ifs <;> exact ⟨rfl, rfl, rfl⟩
    | none => exact ⟨rfl, rfl, rfl⟩
  | released n =>
    cases n with
    | some k =>
      dsimp only [applyDecoded]
      unfold handleButtonRelease
      split_ifs <;> exact ⟨rfl, rfl, rfl⟩
    | none => exact ⟨rfl, rfl, rfl⟩
  | ledConfirmed n t s =>
    cases n with
    | some k =>
      dsimp only [applyDecoded]
      split_ifs <;> exact ⟨rfl, rfl, rfl⟩
    | none => exact ⟨rfl, rfl, rfl⟩
  | pong => exact ⟨rfl, rfl, rfl⟩
  | unrecognized => exact ⟨rfl, rfl, rfl⟩

/-- One fresh event preserves the map invariant. -/
theorem mapsAgree_step (st : State) (e : Event) (hA : MapsAgree st)
    (hf : freshStep st e = true) : MapsAgree (step st e) := by
  cases e with
  | connect p =>
    obtain ⟨hiff, hlive⟩ := hA
    refine ⟨hiff, ?_⟩
    intro p' m h
    obtain ⟨hc, hb⟩ := hlive p' m h
    refine ⟨?_, hb⟩
    show fnSet st.connections p true p' = true
    unfold fnSet
    split_ifs with hq
    · rfl
    · exact hc
  | disconnect p => exact mapsAgree_handleDisconnection st p hA
  | line p msg =>
    show MapsAgree (processMessage st p msg)
    unfold processMessage
    split_ifs with he
    · exact hA
    · cases hd : decodeMessage msg with
      | ready n =>
        cases n with
        | some k =>
          have hf' : st.connections p = true
              ∧ st.buttonMappings p = none
              ∧ st.portToButton k = none := by
            simp only [freshStep, hd, Bool.and_eq_true,
              Option.isNone_iff_eq_none] at hf
            exact ⟨hf.1.1, hf.1.2, hf.2⟩
          exact mapsAgree_registerButton st p k hA hf'.1 hf'.2.1 hf'.2.2
        | none => exact hA
      | pressed n =>
        have hu := maps_unchanged_applyDecoded st p (.pressed n)
          (fun _ h => Decoded.noConfusion h)
        obtain ⟨hiff, hlive⟩ := hA
        refine ⟨fun p' m => ?_, fun p' m h => ?_⟩
        · rw [hu.1, hu.2.1]
          exact hiff p' m
        · rw [hu.1] at h
          rw [hu.2.2]
          exact hlive p' m h
      | released n =>
        have hu := maps_unchanged_applyDecoded st p (.released n)
          (fun _ h => Decoded.noConfusion h)
        obtain ⟨hiff, hlive⟩ := hA
        refine ⟨fun p' m => ?_, fun p' m h => ?_⟩
        · rw [hu.1, hu.2.1]
          exact hiff p' m
        · rw [hu.1] at h
          rw [hu.2.2]
          exact hlive p' m h
      | ledConfirmed n t s =>
        have hu := maps_unchanged_applyDecoded st p (.ledConfirmed n t s)
          (fun _ h => Decoded.noConfusion h)
        obtain ⟨hiff, hlive⟩ := hA
        refine ⟨fun p' m => ?_, fun p' m h => ?_⟩
        · rw [hu.1, hu.2.1]
          exact hiff p' m
        · rw [hu.1] at h
          rw [hu.2.2]
          exact hlive p' m h
      | pong => exact hA
      | unrecognized => exact hA

end FourMicrobitController

/-- C2, counterexample to the claim as stated: after the reachable trace in
which live ports "A" and "B" both identify as button 2 (last-identification
wins), both live connections still map to role 2 in `buttonMappings` while
`portToButton 2` names only "B" — so the two maps are not mutual inverses
restricted to live connections, and the role-to-device relation on
identified live connections is not a bijection ("A" is live and identified
but orphaned). -/
theorem c2_counterexample :
    (FourMicrobitController.run FourMicrobitController.initState
        FourMicrobitController.conflictTrace).buttonMappings "A" = some 2
    ∧ (FourMicrobitController.run FourMicrobitController.initState
        FourMicrobitController.conflictTrace).buttonMappings "B" = some 2
    ∧ (FourMicrobitController.run FourMicrobitController.initState
        FourMicrobitController.conflictTrace).connections "A" = true
    ∧ (FourMicrobitController.run FourMicrobitController.initState
        FourMicrobitController.conflictTrace).portToButton 2 = some "B"
    ∧ ¬ FourMicrobitController.RoleBijectionOnLive
        (FourMicrobitController.run FourMicrobitController.initState
          FourMicrobitController.conflictTrace) := by
  refine ⟨by decide, by decide, by decide, by decide, ?_⟩
  intro h
  have h2 := (h "A" 2 (by decide)).mp (by decide)
  exact absurd h2 (by decide)

/-- C2, amended: the constructor state satisfies the map invariant, and the
invariant is preserved along every run whose registration events are
conflict-free (each `BUTTON_n_..._READY` arrives on a live port that holds
no role while role `n` is unclaimed): `buttonMappings` and `portToButton`
then remain mutual inverses, every registered port is live, and every held
role is in 1..4 — a bijection between claimed roles and registered live
connections.  Without the freshness condition a duplicate claim overwrites
`portToButton` but leaves the loser's `buttonMappings` entry stale
(see the counterexample), exactly the orphaning §4.2 of the spec
describes. -/
theorem c2_fresh_runs_keep_bijection :
    FourMicrobitController.MapsAgree FourMicrobitController.initState
    ∧ ∀ (st : FourMicrobitController.State)
        (es : List FourMicrobitController.Event),
        FourMicrobitController.MapsAgree st →
        FourMicrobitController.freshRun st es = true →
        FourMicrobitController.MapsAgree
          (FourMicrobitController.run st es) := by
  constructor
  · constructor
    · intro p n
      simp [FourMicrobitController.initState]
    · intro p n h
      simp [FourMicrobitController.initState] at h
  · intro st es
    induction es generalizing st with
    | nil => exact fun hA _ => hA
    | cons e es ih =>
      intro hA hf
      rw [FourMicrobitController.freshRun, Bool.and_eq_true] at hf
      exact ih (FourMicrobitController.step st e)
        (FourMicrobitController.mapsAgree_step st e hA hf.1) hf.2

/-- Witness for C2 (amended): a conflict-free trace — connect "A", then
"A" identifies as button 1 — ends in a state satisfying the invariant. -/
theorem c2_witness :
    FourMicrobitController.MapsAgree
      (FourMicrobitController.run FourMicrobitController.initState
        [FourMicrobitController.Event.connect "A",
         FourMicrobitController.Event.line "A" "BUTTON_1_GREEN_READY"]) :=
  c2_fresh_runs_keep_bijection.2 FourMicrobitController.initState
    [FourMicrobitController.Event.connect "A",
     FourMicrobitController.Event.line "A" "BUTTON_1_GREEN_READY"]
    c2_fresh_runs_keep_bijection.1 (by decide)
